import Mathlib

/-!
Verification of the transcript fetch-and-save script
(src/youtube-transcript-downloader/example.py).

The script is a linear sequence of calls against the black-box
youtube-transcript-api collaborator:

  transcript_list = ytt_api.list(VIDEO_ID)
  transcripts = [x for x in transcript_list]
  transcript = transcripts[0] if len(transcripts) == 1 else None
  if transcript is not None:
      my_ts = transcript.fetch()
      my_ts_l = my_ts.to_raw_data()
      with open("video_transcript.txt", "w") as f:
          f.write(' '.join([x['text'] for x in my_ts_l]))

We embed it shallowly.  The collaborator is modelled by an environment
that fixes the outcome of each external call (as Python dynamic calls,
each may raise).  The filesystem is the content of the single output
path.  A run additionally records a trace of observable events, so that
ordering and frame properties (no fetch, no write, enumeration happens
once) can be stated.
-/

/-- Failures raised by the collaborator: invalid/nonexistent video id,
captions disabled / no transcripts, transport-level failure.  Each
carries an opaque message so that "propagates unmodified" is meaningful. -/
inductive ApiErr where
  | notFound (msg : String)
  | noTranscripts (msg : String)
  | transport (msg : String)
  deriving DecidableEq, Repr

/-- Failures observable at the process boundary of the script: either a
collaborator failure, or an IndexError from the script's own list
indexing. -/
inductive PyErr where
  | api (e : ApiErr)
  | indexError
  deriving DecidableEq, Repr

instance [DecidableEq ε] [DecidableEq α] : DecidableEq (Except ε α) := fun a b =>
  match a, b with
  | Except.error x, Except.error y =>
    if h : x = y then Decidable.isTrue (by rw [h])
    else Decidable.isFalse (by intro hc; cases hc; exact h rfl)
  | Except.error _, Except.ok _ => Decidable.isFalse (by intro hc; cases hc)
  | Except.ok _, Except.error _ => Decidable.isFalse (by intro hc; cases hc)
  | Except.ok x, Except.ok y =>
    if h : x = y then Decidable.isTrue (by rw [h])
    else Decidable.isFalse (by intro hc; cases hc; exact h rfl)

/-- One caption entry of the raw data: a record with a text field and
timing fields (start, duration).  The script reads only the text field;
the timing floats are modelled as rationals since the script never
computes with them. -/
structure CaptionEntry where
  text : String
  start : Rat
  duration : Rat
  deriving DecidableEq, Repr

/-- The object returned by transcript.fetch(); its to_raw_data() call is
a collaborator call whose outcome the environment fixes. -/
structure FetchedTranscript where
  rawDataOutcome : Except ApiErr (List CaptionEntry)
  deriving DecidableEq, Repr

/-- A transcript descriptor from the listing; its fetch() call is a
collaborator call whose outcome the environment fixes. -/
structure TranscriptDesc where
  fetchOutcome : Except ApiErr FetchedTranscript
  deriving DecidableEq, Repr

/-- The environment: the outcome of ytt_api.list(VIDEO_ID).  The lazy
sequence it returns is modelled by the list of descriptors it yields
when enumerated. -/
structure Env where
  listOutcome : Except ApiErr (List TranscriptDesc)
  deriving DecidableEq, Repr

/-- Filesystem state: the content of the output path
"video_transcript.txt" (none = the file does not exist). -/
structure FS where
  file : Option String
  deriving DecidableEq, Repr

/-- Observable events of a run, in order. -/
inductive Event where
  | listCall (videoId : String)
  | enumerate (i : Nat)
  | fetchCall
  | toRawDataCall
  | fileOpen (path : String)
  | fileWrite (path : String) (content : String)
  deriving DecidableEq, Repr

/-- VIDEO_ID = 'sa-ASdF1234' (the hardcoded id from the video URL). -/
def VIDEO_ID : String := "sa-ASdF1234"

/-- The fixed relative output path of open("video_transcript.txt", "w"). -/
def outputPath : String := "video_transcript.txt"

/-- Python list indexing l[i]: the value at i, or an IndexError. -/
def pyIndex (l : List α) (i : Nat) : Except PyErr α :=
  match l.get? i with
  | some a => Except.ok a
  | none => Except.error PyErr.indexError

/-- transcripts = [x for x in transcript_list]: the comprehension
materializes the lazy sequence into a concrete list, enumerating each
element once (recorded as events). -/
def materialize (l : List TranscriptDesc) : List TranscriptDesc × List Event :=
  (l, (List.range l.length).map Event.enumerate)

/-- transcript = transcripts[0] if len(transcripts) == 1 else None.
The indexing is evaluated only when the length equals one. -/
def scriptSelect (transcripts : List TranscriptDesc) :
    Except PyErr (Option TranscriptDesc) :=
  if transcripts.length = 1 then Except.map some (pyIndex transcripts 0)
  else Except.ok none

/-- ' '.join([x['text'] for x in my_ts_l]): the text fields in sequence
order, joined with the separator, which is Python's str.join semantics:
empty sequence gives "", a single element gives its text verbatim, and
every further boundary contributes exactly one separator. -/
def joinTexts : List CaptionEntry → String
  | [] => ""
  | [x] => x.text
  | x :: xs => x.text ++ " " ++ joinTexts xs

/-- The whole script, from the list call on, as a function of the
environment and the initial filesystem state.  Returns the outcome at
the process boundary (ok, or the uncaught exception), the final
filesystem state, and the event trace. -/
def run (env : Env) (fs : FS) : Except PyErr Unit × FS × List Event :=
  match env.listOutcome with
  | Except.error e => (Except.error (PyErr.api e), fs, [Event.listCall VIDEO_ID])
  | Except.ok transcript_list =>
    let transcripts := (materialize transcript_list).1
    let evs := Event.listCall VIDEO_ID :: (materialize transcript_list).2
    match scriptSelect transcripts with
    | Except.error e => (Except.error e, fs, evs)
    | Except.ok none => (Except.ok (), fs, evs)
    | Except.ok (some transcript) =>
      match transcript.fetchOutcome with
      | Except.error e => (Except.error (PyErr.api e), fs, evs ++ [Event.fetchCall])
      | Except.ok my_ts =>
        match my_ts.rawDataOutcome with
        | Except.error e =>
          (Except.error (PyErr.api e), fs,
            evs ++ [Event.fetchCall, Event.toRawDataCall])
        | Except.ok my_ts_l =>
          (Except.ok (), { file := some (joinTexts my_ts_l) },
            evs ++ [Event.fetchCall, Event.toRawDataCall,
              Event.fileOpen outputPath,
              Event.fileWrite outputPath (joinTexts my_ts_l)])

/-! ### Run equations, one per branch of the script -/

lemma run_list_error (env : Env) (fs : FS) (e : ApiErr)
    (h : env.listOutcome = Except.error e) :
    run env fs = (Except.error (PyErr.api e), fs, [Event.listCall VIDEO_ID]) := by
  simp [run, h]

lemma scriptSelect_nonsingleton (ts : List TranscriptDesc) (h : ts.length ≠ 1) :
    scriptSelect ts = Except.ok none := by
  simp [scriptSelect, h]

lemma scriptSelect_singleton (t : TranscriptDesc) :
    scriptSelect [t] = Except.ok (some t) := by
  simp [scriptSelect, pyIndex, Except.map]

lemma run_nonsingleton (env : Env) (fs : FS) (ts : List TranscriptDesc)
    (h : env.listOutcome = Except.ok ts) (hlen : ts.length ≠ 1) :
    run env fs =
      (Except.ok (), fs,
        Event.listCall VIDEO_ID :: (List.range ts.length).map Event.enumerate) := by
  simp [run, h, materialize, scriptSelect_nonsingleton ts hlen]

lemma run_fetch_error (env : Env) (fs : FS) (t : TranscriptDesc) (e : ApiErr)
    (h : env.listOutcome = Except.ok [t]) (hf : t.fetchOutcome = Except.error e) :
    run env fs =
      (Except.error (PyErr.api e), fs,
        [Event.listCall VIDEO_ID, Event.enumerate 0, Event.fetchCall]) := by
  simp [run, h, materialize, scriptSelect_singleton, hf, List.range_succ, List.range_zero]

lemma run_rawData_error (env : Env) (fs : FS) (t : TranscriptDesc)
    (ft : FetchedTranscript) (e : ApiErr)
    (h : env.listOutcome = Except.ok [t]) (hf : t.fetchOutcome = Except.ok ft)
    (hr : ft.rawDataOutcome = Except.error e) :
    run env fs =
      (Except.error (PyErr.api e), fs,
        [Event.listCall VIDEO_ID, Event.enumerate 0, Event.fetchCall,
          Event.toRawDataCall]) := by
  simp [run, h, materialize, scriptSelect_singleton, hf, hr, List.range_succ, List.range_zero]

lemma run_write (env : Env) (fs : FS) (t : TranscriptDesc)
    (ft : FetchedTranscript) (es : List CaptionEntry)
    (h : env.listOutcome = Except.ok [t]) (hf : t.fetchOutcome = Except.ok ft)
    (hr : ft.rawDataOutcome = Except.ok es) :
    run env fs =
      (Except.ok (), { file := some (joinTexts es) },
        [Event.listCall VIDEO_ID, Event.enumerate 0, Event.fetchCall,
          Event.toRawDataCall, Event.fileOpen outputPath,
          Event.fileWrite outputPath (joinTexts es)]) := by
  simp [run, h, materialize, scriptSelect_singleton, hf, hr, List.range_succ, List.range_zero]

/-! ### Concrete sample environments for witnesses -/

/-- The fetched transcript of the spec's single-transcript test case:
caption entries Hello and world (timing fields arbitrary). -/
def sampleFetchedHW : FetchedTranscript :=
  ⟨Except.ok [⟨"Hello", 0, 1⟩, ⟨"world", 1, 1⟩]⟩

/-- A transcript descriptor whose fetch succeeds with the Hello/world data. -/
def sampleDescHW : TranscriptDesc := ⟨Except.ok sampleFetchedHW⟩

/-- An environment whose listing yields exactly one transcript. -/
def sampleEnvHW : Env := ⟨Except.ok [sampleDescHW]⟩

/-! ### Claims -/

/-- C1: the selection rule picks the first transcript of the materialized
collection iff the collection has exactly one element; for length zero or
two-or-more it selects nothing and the run performs no further action:
the filesystem is returned unchanged and the trace holds only the list
call and the enumeration events (no fetch, no join, no write). -/
theorem C1_selection_singleton_iff (env : Env) (ts : List TranscriptDesc) (fs : FS)
    (h : env.listOutcome = Except.ok ts) :
    ((∃ t, scriptSelect ts = Except.ok (some t) ∧ ts.head? = some t) ↔
      ts.length = 1) ∧
    (ts.length ≠ 1 →
      run env fs =
        (Except.ok (), fs,
          Event.listCall VIDEO_ID :: (List.range ts.length).map Event.enumerate)) := by
  constructor
  · constructor
    · rintro ⟨t, hsel, -⟩
      by_contra hlen
      rw [scriptSelect_nonsingleton ts hlen] at hsel
      cases hsel
    · intro hlen
      match ts, hlen with
      | [t], _ => exact ⟨t, scriptSelect_singleton t, rfl⟩
  · intro hlen
    exact run_nonsingleton env fs ts h hlen

/-- Witness for C1 at a concrete two-transcript environment. -/
theorem C1_selection_singleton_iff_witness :
    ((∃ t, scriptSelect [sampleDescHW, sampleDescHW] = Except.ok (some t) ∧
        [sampleDescHW, sampleDescHW].head? = some t) ↔
      [sampleDescHW, sampleDescHW].length = 1) ∧
    ([sampleDescHW, sampleDescHW].length ≠ 1 →
      run ⟨Except.ok [sampleDescHW, sampleDescHW]⟩ ⟨none⟩ =
        (Except.ok (), ⟨none⟩,
          Event.listCall VIDEO_ID ::
            (List.range [sampleDescHW, sampleDescHW].length).map Event.enumerate)) :=
  C1_selection_singleton_iff ⟨Except.ok [sampleDescHW, sampleDescHW]⟩
    [sampleDescHW, sampleDescHW] ⟨none⟩ rfl

/-- C2: with exactly one available transcript whose fetched caption
entries are Hello and world, the run writes the output file (a file-write
event at the output path occurs) and the file content is exactly the
string "Hello world". -/
theorem C2_hello_world :
    (run sampleEnvHW ⟨none⟩).2.1.file = some "Hello world" ∧
    Event.fileWrite outputPath "Hello world" ∈ (run sampleEnvHW ⟨none⟩).2.2 := by
  constructor
  · rfl
  · decide

/-- C3: when the list call succeeds with zero or two-or-more transcripts,
the output file is neither created nor modified: the final filesystem
state is exactly the initial one and the trace holds no file-open and no
file-write event. -/
theorem C3_nonsingleton_frame (env : Env) (ts : List TranscriptDesc) (fs : FS)
    (h : env.listOutcome = Except.ok ts) (hlen : ts.length ≠ 1) :
    (run env fs).2.1 = fs ∧
    (∀ p c, Event.fileWrite p c ∉ (run env fs).2.2) ∧
    (∀ p, Event.fileOpen p ∉ (run env fs).2.2) := by
  rw [run_nonsingleton env fs ts h hlen]
  refine ⟨rfl, ?_, ?_⟩
  · intro p c hmem
    simp [List.mem_cons, List.mem_map] at hmem
  · intro p hmem
    simp [List.mem_cons, List.mem_map] at hmem

/-- Witness for C3 at a concrete empty listing over a pre-existing file. -/
theorem C3_nonsingleton_frame_witness :
    (run ⟨Except.ok []⟩ ⟨some "old"⟩).2.1 = ⟨some "old"⟩ ∧
    (∀ p c, Event.fileWrite p c ∉ (run ⟨Except.ok []⟩ ⟨some "old"⟩).2.2) ∧
    (∀ p, Event.fileOpen p ∉ (run ⟨Except.ok []⟩ ⟨some "old"⟩).2.2) :=
  C3_nonsingleton_frame ⟨Except.ok []⟩ [] ⟨some "old"⟩ rfl (by decide)

/-- C4: the written string is the entries' text fields in sequence order
joined with exactly one space per boundary, texts unaltered: the join of
no entries is "", of one entry its text verbatim (whitespace included),
each further boundary contributes exactly one space, and a run that
reaches the write stores exactly this join of the fetched entries. -/
theorem C4_join_exact_spacing (e : CaptionEntry) (es : List CaptionEntry)
    (hes : es ≠ []) (env : Env) (fs : FS) (t : TranscriptDesc)
    (ft : FetchedTranscript) (h : env.listOutcome = Except.ok [t])
    (hf : t.fetchOutcome = Except.ok ft) (hr : ft.rawDataOutcome = Except.ok es) :
    joinTexts [] = "" ∧
    joinTexts [e] = e.text ∧
    joinTexts (e :: es) = e.text ++ " " ++ joinTexts es ∧
    (run env fs).2.1.file = some (joinTexts es) := by
  refine ⟨rfl, rfl, ?_, ?_⟩
  · match es, hes with
    | y :: ys, _ => rfl
  · rw [run_write env fs t ft es h hf hr]

/-- Caption entries with embedded/leading/trailing whitespace and an
empty text, for the join witnesses. -/
def sampleEntriesWS : List CaptionEntry := [⟨"", 0, 1⟩, ⟨"a  b ", 2, 3⟩]

/-- An environment whose one transcript fetches the whitespace entries. -/
def sampleEnvWS : Env := ⟨Except.ok [⟨Except.ok ⟨Except.ok sampleEntriesWS⟩⟩]⟩

/-- Witness for C4 at entries with empty and whitespace-laden texts. -/
theorem C4_join_exact_spacing_witness :
    joinTexts [] = "" ∧
    joinTexts [⟨" x ", 0, 1⟩] = CaptionEntry.text ⟨" x ", 0, 1⟩ ∧
    joinTexts (⟨" x ", 0, 1⟩ :: sampleEntriesWS) =
      CaptionEntry.text ⟨" x ", 0, 1⟩ ++ " " ++ joinTexts sampleEntriesWS ∧
    (run sampleEnvWS ⟨none⟩).2.1.file = some (joinTexts sampleEntriesWS) :=
  C4_join_exact_spacing ⟨" x ", 0, 1⟩ sampleEntriesWS (by decide) sampleEnvWS
    ⟨none⟩ ⟨Except.ok ⟨Except.ok sampleEntriesWS⟩⟩ ⟨Except.ok sampleEntriesWS⟩
    rfl rfl rfl

/-- C5: running the routine twice against the same single-transcript
collaborator responses is idempotent: the write is a pure
create-or-truncate overwrite, so the second run leaves exactly the file
content the first run produced, which is the join of the entries. -/
theorem C5_idempotent_overwrite (env : Env) (fs : FS) (t : TranscriptDesc)
    (ft : FetchedTranscript) (es : List CaptionEntry)
    (h : env.listOutcome = Except.ok [t]) (hf : t.fetchOutcome = Except.ok ft)
    (hr : ft.rawDataOutcome = Except.ok es) :
    (run env ((run env fs).2.1)).2.1 = (run env fs).2.1 ∧
    (run env fs).2.1.file = some (joinTexts es) := by
  have h1 := run_write env fs t ft es h hf hr
  have h2 := run_write env { file := some (joinTexts es) } t ft es h hf hr
  rw [h1]
  rw [h2]
  exact ⟨rfl, rfl⟩

/-- Witness for C5 at the Hello/world environment. -/
theorem C5_idempotent_overwrite_witness :
    (run sampleEnvHW ((run sampleEnvHW ⟨none⟩).2.1)).2.1 =
      (run sampleEnvHW ⟨none⟩).2.1 ∧
    (run sampleEnvHW ⟨none⟩).2.1.file =
      some (joinTexts [⟨"Hello", 0, 1⟩, ⟨"world", 1, 1⟩]) :=
  C5_idempotent_overwrite sampleEnvHW ⟨none⟩ sampleDescHW sampleFetchedHW
    [⟨"Hello", 0, 1⟩, ⟨"world", 1, 1⟩] rfl rfl rfl

/-- C6: every collaborator failure — raised by the list call, by the
fetch call, or by the raw-data conversion — is not caught: the run ends
at the process boundary with exactly that failure, unmodified. -/
theorem C6_failures_propagate (env : Env) (fs : FS) (e : ApiErr)
    (h : env.listOutcome = Except.error e ∨
      (∃ t, env.listOutcome = Except.ok [t] ∧
        t.fetchOutcome = Except.error e) ∨
      (∃ t ft, env.listOutcome = Except.ok [t] ∧
        t.fetchOutcome = Except.ok ft ∧ ft.rawDataOutcome = Except.error e)) :
    (run env fs).1 = Except.error (PyErr.api e) := by
  rcases h with h | ⟨t, h, hf⟩ | ⟨t, ft, h, hf, hr⟩
  · rw [run_list_error env fs e h]
  · rw [run_fetch_error env fs t e h hf]
  · rw [run_rawData_error env fs t ft e h hf hr]

/-- Witness for C6 at a listing that raises a no-transcripts failure. -/
theorem C6_failures_propagate_witness :
    (run ⟨Except.error (ApiErr.noTranscripts "captions disabled")⟩ ⟨none⟩).1 =
      Except.error (PyErr.api (ApiErr.noTranscripts "captions disabled")) :=
  C6_failures_propagate ⟨Except.error (ApiErr.noTranscripts "captions disabled")⟩
    ⟨none⟩ (ApiErr.noTranscripts "captions disabled") (Or.inl rfl)

lemma count_enumerate_range (n i : Nat) (hi : i < n) :
    ((List.range n).map Event.enumerate).count (Event.enumerate i) = 1 := by
  have hinj : Function.Injective Event.enumerate := by
    intro a b hab
    cases hab
    rfl
  rw [List.count_map_of_injective _ _ hinj]
  exact List.count_eq_one_of_mem (List.nodup_range n) (List.mem_range.mpr hi)

/-- C7: the lazy sequence is fully materialized before the singleton
check: whenever the list call yields a sequence, the trace starts with
the list call followed by one enumeration event per element — all before
any fetch, open or write — and each enumeration event occurs exactly
once in the whole run. -/
theorem C7_materialized_once_before_check (env : Env) (ts : List TranscriptDesc)
    (fs : FS) (h : env.listOutcome = Except.ok ts) :
    ((run env fs).2.2).take (ts.length + 1) =
      Event.listCall VIDEO_ID :: (List.range ts.length).map Event.enumerate ∧
    ∀ i, i < ts.length → ((run env fs).2.2).count (Event.enumerate i) = 1 := by
  by_cases hlen : ts.length = 1
  · obtain ⟨t, rfl⟩ := List.length_eq_one.mp hlen
    have hone : ∀ i, i < [t].length → i = 0 := by
      intro i hi
      exact Nat.lt_one_iff.mp hi
    rcases hft : t.fetchOutcome with e | ft
    · rw [run_fetch_error env fs t e h hft]
      refine ⟨rfl, ?_⟩
      intro i hi
      rw [hone i hi]
      simp [List.count_cons]
    · rcases hraw : ft.rawDataOutcome with e | my_ts_l
      · rw [run_rawData_error env fs t ft e h hft hraw]
        refine ⟨rfl, ?_⟩
        intro i hi
        rw [hone i hi]
        simp [List.count_cons]
      · rw [run_write env fs t ft my_ts_l h hft hraw]
        refine ⟨rfl, ?_⟩
        intro i hi
        rw [hone i hi]
        simp [List.count_cons]
  · rw [run_nonsingleton env fs ts h hlen]
    have hlenmap : ((List.range ts.length).map Event.enumerate).length = ts.length := by
      simp
    constructor
    · rw [List.take_succ_cons]
      rw [List.take_of_length_le (le_of_eq hlenmap)]
    · intro i hi
      have h1 := count_enumerate_range ts.length i hi
      simp [List.count_cons, h1]

/-- Witness for C7 at the Hello/world environment. -/
theorem C7_materialized_once_before_check_witness :
    ((run sampleEnvHW ⟨none⟩).2.2).take ([sampleDescHW].length + 1) =
      Event.listCall VIDEO_ID ::
        (List.range [sampleDescHW].length).map Event.enumerate ∧
    ∀ i, i < [sampleDescHW].length →
      ((run sampleEnvHW ⟨none⟩).2.2).count (Event.enumerate i) = 1 :=
  C7_materialized_once_before_check sampleEnvHW [sampleDescHW] ⟨none⟩ rfl

/-- C8: the script's only list indexing, transcripts[0], is evaluated
only under the guard len(transcripts) == 1, hence always in bounds: no
run ends with an IndexError, whatever the collaborator returns. -/
theorem C8_indexing_total (env : Env) (fs : FS) :
    (run env fs).1 ≠ Except.error PyErr.indexError := by
  rcases henv : env.listOutcome with e | ts
  · rw [run_list_error env fs e henv]
    simp
  · by_cases hlen : ts.length = 1
    · obtain ⟨t, rfl⟩ := List.length_eq_one.mp hlen
      rcases hft : t.fetchOutcome with e | ft
      · rw [run_fetch_error env fs t e henv hft]
        simp
      · rcases hraw : ft.rawDataOutcome with e | es
        · rw [run_rawData_error env fs t ft e henv hft hraw]
          simp
        · rw [run_write env fs t ft es henv hft hraw]
          simp
    · rw [run_nonsingleton env fs ts henv hlen]
      simp

/-- C9: if the fetch of the selected transcript or the raw-data
conversion fails, the output file is neither created nor modified: the
file is opened only after both have succeeded, so the filesystem is left
exactly as it was and the trace holds no open and no write event. -/
theorem C9_no_write_on_late_error (env : Env) (fs : FS) (e : ApiErr)
    (h : (∃ t, env.listOutcome = Except.ok [t] ∧
        t.fetchOutcome = Except.error e) ∨
      (∃ t ft, env.listOutcome = Except.ok [t] ∧ t.fetchOutcome = Except.ok ft ∧
        ft.rawDataOutcome = Except.error e)) :
    (run env fs).2.1 = fs ∧
    (∀ p, Event.fileOpen p ∉ (run env fs).2.2) ∧
    (∀ p c, Event.fileWrite p c ∉ (run env fs).2.2) := by
  rcases h with ⟨t, h, hf⟩ | ⟨t, ft, h, hf, hr⟩
  · rw [run_fetch_error env fs t e h hf]
    refine ⟨rfl, ?_, ?_⟩
    · intro p hmem
      simp at hmem
    · intro p c hmem
      simp at hmem
  · rw [run_rawData_error env fs t ft e h hf hr]
    refine ⟨rfl, ?_, ?_⟩
    · intro p hmem
      simp at hmem
    · intro p c hmem
      simp at hmem

/-- An environment whose one transcript fails on fetch. -/
def sampleEnvFetchErr : Env :=
  ⟨Except.ok [⟨Except.error (ApiErr.transport "timeout")⟩]⟩

/-- Witness for C9 at a fetch failure over a pre-existing file. -/
theorem C9_no_write_on_late_error_witness :
    (run sampleEnvFetchErr ⟨some "old"⟩).2.1 = ⟨some "old"⟩ ∧
    (∀ p, Event.fileOpen p ∉ (run sampleEnvFetchErr ⟨some "old"⟩).2.2) ∧
    (∀ p c, Event.fileWrite p c ∉ (run sampleEnvFetchErr ⟨some "old"⟩).2.2) :=
  C9_no_write_on_late_error sampleEnvFetchErr ⟨some "old"⟩
    (ApiErr.transport "timeout")
    (Or.inl ⟨⟨Except.error (ApiErr.transport "timeout")⟩, rfl, rfl⟩)

lemma joinTexts_eq_of_texts_eq :
    ∀ es₁ es₂ : List CaptionEntry,
      es₁.map CaptionEntry.text = es₂.map CaptionEntry.text →
      joinTexts es₁ = joinTexts es₂ := by
  intro es₁
  induction es₁ with
  | nil =>
    intro es₂ htext
    cases es₂ with
    | nil => rfl
    | cons y ys => simp at htext
  | cons x xs ih =>
    intro es₂ htext
    cases es₂ with
    | nil => simp at htext
    | cons y ys =>
      simp only [List.map_cons, List.cons.injEq] at htext
      obtain ⟨hxy, hmap⟩ := htext
      cases xs with
      | nil =>
        cases ys with
        | nil => exact hxy
        | cons b bs => simp at hmap
      | cons a as =>
        cases ys with
        | nil => simp at hmap
        | cons b bs =>
          have hrec := ih (b :: bs) hmap
          show x.text ++ " " ++ joinTexts (a :: as) =
            y.text ++ " " ++ joinTexts (b :: bs)
          rw [hxy, hrec]

lemma run_independent_of_fs (env : Env) (fs₁ fs₂ : FS) :
    (run env fs₁).1 = (run env fs₂).1 ∧
    (run env fs₁).2.2 = (run env fs₂).2.2 := by
  rcases henv : env.listOutcome with e | ts
  · rw [run_list_error env fs₁ e henv, run_list_error env fs₂ e henv]
    exact ⟨rfl, rfl⟩
  · by_cases hlen : ts.length = 1
    · obtain ⟨t, rfl⟩ := List.length_eq_one.mp hlen
      rcases hft : t.fetchOutcome with e | ft
      · rw [run_fetch_error env fs₁ t e henv hft,
          run_fetch_error env fs₂ t e henv hft]
        exact ⟨rfl, rfl⟩
      · rcases hraw : ft.rawDataOutcome with e | es
        · rw [run_rawData_error env fs₁ t ft e henv hft hraw,
            run_rawData_error env fs₂ t ft e henv hft hraw]
          exact ⟨rfl, rfl⟩
        · rw [run_write env fs₁ t ft es henv hft hraw,
            run_write env fs₂ t ft es henv hft hraw]
          exact ⟨rfl, rfl⟩
    · rw [run_nonsingleton env fs₁ ts henv hlen,
        run_nonsingleton env fs₂ ts henv hlen]
      exact ⟨rfl, rfl⟩

/-- C10: the routine is deterministic: for the same collaborator
responses the outcome and the whole event trace — hence the selection
and the written content, which the write event carries — are the same
whatever the rest of the environment (here: the prior filesystem state),
and the written string depends only on the entries' text fields. -/
theorem C10_deterministic (env : Env) (fs₁ fs₂ : FS)
    (es₁ es₂ : List CaptionEntry)
    (htext : es₁.map CaptionEntry.text = es₂.map CaptionEntry.text) :
    (run env fs₁).1 = (run env fs₂).1 ∧
    (run env fs₁).2.2 = (run env fs₂).2.2 ∧
    joinTexts es₁ = joinTexts es₂ :=
  ⟨(run_independent_of_fs env fs₁ fs₂).1,
    (run_independent_of_fs env fs₁ fs₂).2,
    joinTexts_eq_of_texts_eq es₁ es₂ htext⟩

/-- Witness for C10: same texts, different timing fields and different
prior filesystem states. -/
theorem C10_deterministic_witness :
    (run sampleEnvHW ⟨none⟩).1 = (run sampleEnvHW ⟨some "x"⟩).1 ∧
    (run sampleEnvHW ⟨none⟩).2.2 = (run sampleEnvHW ⟨some "x"⟩).2.2 ∧
    joinTexts [⟨"hi", 0, 1⟩] = joinTexts [⟨"hi", 5, 7⟩] :=
  C10_deterministic sampleEnvHW ⟨none⟩ ⟨some "x"⟩ [⟨"hi", 0, 1⟩]
    [⟨"hi", 5, 7⟩] rfl
